import Mathlib

/-!
Verification of `spread_trade_pl_calculator.py` (Yutai_Cross).

The calculation engine is pure arithmetic over calendar dates and decimal
amounts.  We embed Python floats as rationals (`ℚ`), Python `datetime.date`
as a `Date` structure carrying its calendar validity, `round(x, 2)` as
round-half-to-even at two decimals, and the `while` loop of
`_count_passed_months` as a fuel-indexed iteration whose fuel is the exact
month-index distance (fuel independence is proved below, which is the
termination argument for the source loop).
-/

/-- Gregorian leap-year test, as used by Python's `datetime` calendar. -/
def isLeap (y : Nat) : Bool :=
  (y % 4 == 0 && y % 100 != 0) || y % 400 == 0

/-- Number of days in month `m` of year `y` (months are 1-based). -/
def daysInMonth (y m : Nat) : Nat :=
  if m = 2 then (if isLeap y then 29 else 28)
  else if m = 4 ∨ m = 6 ∨ m = 9 ∨ m = 11 then 30
  else 31

theorem one_le_daysInMonth (y m : Nat) : 1 ≤ daysInMonth y m := by
  unfold daysInMonth
  split
  · split <;> omega
  · split <;> omega

theorem daysInMonth_le_31 (y m : Nat) : daysInMonth y m ≤ 31 := by
  unfold daysInMonth
  split
  · split <;> omega
  · split <;> omega

/-- A calendar date (`datetime.date`): a year, a 1-based month and a
1-based day, with the calendar validity Python's `date` enforces. -/
structure Date where
  year : Nat
  month : Nat
  day : Nat
  month_ge : 1 ≤ month
  month_le : month ≤ 12
  day_ge : 1 ≤ day
  day_le : day ≤ daysInMonth year month

/-- Linear month index of a date; one calendar-month step adds one. -/
def monthIdx (d : Date) : Nat := d.year * 12 + d.month

/-- Python `date` comparison `a <= b`: lexicographic on (year, month, day). -/
def dateLeb (a b : Date) : Bool :=
  decide (a.year < b.year ∨ (a.year = b.year ∧
    (a.month < b.month ∨ (a.month = b.month ∧ a.day ≤ b.day))))

/-- `d + relativedelta(months=+1)`: step to the next calendar month and
clamp the day into the (possibly shorter) target month. -/
def addMonth (d : Date) : Date :=
  if h : d.month = 12 then
    { year := d.year + 1, month := 1,
      day := min d.day (daysInMonth (d.year + 1) 1),
      month_ge := le_refl 1, month_le := by omega,
      day_ge := le_min d.day_ge (one_le_daysInMonth _ _),
      day_le := min_le_right _ _ }
  else
    { year := d.year, month := d.month + 1,
      day := min d.day (daysInMonth d.year (d.month + 1)),
      month_ge := by omega,
      month_le := by have := d.month_le; omega,
      day_ge := le_min d.day_ge (one_le_daysInMonth _ _),
      day_le := min_le_right _ _ }

theorem monthIdx_addMonth (d : Date) : monthIdx (addMonth d) = monthIdx d + 1 := by
  unfold addMonth monthIdx
  split
  · simp only
    omega
  · simp only
    omega

theorem monthIdx_le_of_dateLeb (a b : Date) (h : dateLeb a b = true) :
    monthIdx a ≤ monthIdx b := by
  have hm1 := a.month_le
  have hm2 := b.month_ge
  have hp := of_decide_eq_true h
  unfold monthIdx
  rcases hp with hy | ⟨hy, hm | ⟨hm, _⟩⟩ <;> omega

/-- Cumulative days before month `m` in a non-leap year (1-based month). -/
def daysBeforeMonthBase (m : Nat) : Nat :=
  match m with
  | 1 => 0 | 2 => 31 | 3 => 59 | 4 => 90 | 5 => 120 | 6 => 151
  | 7 => 181 | 8 => 212 | 9 => 243 | 10 => 273 | 11 => 304 | 12 => 334
  | _ => 0

/-- Python `date.toordinal()`: day number in the proleptic Gregorian
calendar, with 0001-01-01 having ordinal 1. -/
def toOrdinal (d : Date) : Nat :=
  let py := d.year - 1
  365 * py + py / 4 - py / 100 + py / 400
    + daysBeforeMonthBase d.month
    + (if isLeap d.year && decide (3 ≤ d.month) then 1 else 0)
    + d.day

/-- `_days_inclusive(start, end) = (end - start).days + 1` from the source. -/
def _days_inclusive (s e : Date) : ℤ :=
  ((toOrdinal e : ℤ) - (toOrdinal s : ℤ)) + 1

/-- One more than the month-index distance: the exact number of iterations
the `while ann <= end` loop of `_count_passed_months` can still perform
when the running anniversary is `a`. -/
def monthsBound (e a : Date) : Nat := monthIdx e + 1 - monthIdx a

/-- Fuel-indexed unfolding of the source loop
`while ann <= end: cnt += 1; ann += relativedelta(months=+1)`,
counting from the running anniversary `a`. -/
def countFuel : Nat → Date → Date → Nat
  | 0, _, _ => 0
  | f + 1, e, a => if dateLeb a e then countFuel f e (addMonth a) + 1 else 0

/-- `_count_passed_months(start, end)` from the source: the loop starts at
`ann = start + relativedelta(months=+1)`; `monthsBound` fuel is exactly
enough, and `countFuel_monthsBound` below shows any larger fuel agrees. -/
def _count_passed_months (s e : Date) : Nat :=
  countFuel (monthsBound e (addMonth s)) e (addMonth s)

theorem countFuel_monthsBound (f : Nat) :
    ∀ (e a : Date), monthsBound e a ≤ f →
      countFuel f e a = countFuel (monthsBound e a) e a := by
  induction f with
  | zero =>
    intro e a h
    have h0 : monthsBound e a = 0 := Nat.le_zero.mp h
    rw [h0]
  | succ f ih =>
    intro e a h
    cases hc : dateLeb a e with
    | false =>
      cases hb : monthsBound e a with
      | zero => simp [countFuel, hc]
      | succ k => simp [countFuel, hc]
    | true =>
      have hm : monthIdx a ≤ monthIdx e := monthIdx_le_of_dateLeb _ _ hc
      have hb1 : monthsBound e a = monthsBound e (addMonth a) + 1 := by
        unfold monthsBound
        rw [monthIdx_addMonth]
        omega
      have hf : monthsBound e (addMonth a) ≤ f := by omega
      calc countFuel (f + 1) e a
          = countFuel f e (addMonth a) + 1 := by simp [countFuel, hc]
        _ = countFuel (monthsBound e (addMonth a)) e (addMonth a) + 1 := by
            rw [ih e (addMonth a) hf]
        _ = countFuel (monthsBound e a) e a := by
            rw [hb1]
            simp [countFuel, hc]

theorem countFuel_le (f : Nat) : ∀ (e a : Date), countFuel f e a ≤ f := by
  induction f with
  | zero => intro e a; exact Nat.le_refl 0
  | succ f ih =>
    intro e a
    unfold countFuel
    split
    · exact Nat.succ_le_succ (ih e (addMonth a))
    · exact Nat.zero_le _

/-- The loop recurrence: counting from `start` is one more than counting
from the first anniversary whenever that anniversary is within `end`. -/
theorem count_passed_months_unfold (s e : Date) :
    _count_passed_months s e =
      if dateLeb (addMonth s) e then _count_passed_months (addMonth s) e + 1
      else 0 := by
  unfold _count_passed_months
  cases hc : dateLeb (addMonth s) e with
  | false =>
    cases hb : monthsBound e (addMonth s) with
    | zero => simp [countFuel]
    | succ k => simp [countFuel, hc]
  | true =>
    have hm := monthIdx_le_of_dateLeb _ _ hc
    rw [monthIdx_addMonth] at hm
    have hb1 : monthsBound e (addMonth s) =
        monthsBound e (addMonth (addMonth s)) + 1 := by
      simp only [monthsBound, monthIdx_addMonth]
      omega
    rw [hb1]
    simp [countFuel, hc]

/-- Floor of a rational, as the executable `Rat.floor`. -/
def qfloor (x : ℚ) : ℤ := x.floor

/-- Python `round(x, 2)` at the integer scale: round half to even. -/
def rne (x : ℚ) : ℤ :=
  let f := qfloor x
  let r := x - (f : ℚ)
  if r < 1 / 2 then f
  else if (1 / 2 : ℚ) < r then f + 1
  else if f % 2 = 0 then f else f + 1

/-- Python `round(x, 2)`: round to two decimal places, half to even. -/
def round2 (x : ℚ) : ℚ := ((rne (100 * x) : ℤ) : ℚ) / 100

theorem qfloor_eq_floor (x : ℚ) : qfloor x = ⌊x⌋ := rfl

theorem qfloor_intCast (n : ℤ) : qfloor (n : ℚ) = n := by
  rw [qfloor_eq_floor, Int.floor_intCast]

theorem rne_intCast (n : ℤ) : rne (n : ℚ) = n := by
  unfold rne
  rw [qfloor_intCast]
  norm_num

theorem round2_idem (x : ℚ) : round2 (round2 x) = round2 x := by
  unfold round2
  have h : (100 : ℚ) * (((rne (100 * x) : ℤ) : ℚ) / 100) = ((rne (100 * x) : ℤ) : ℚ) := by
    field_simp
  rw [h, rne_intCast]

theorem round2_zero : round2 0 = 0 := by
  have h : ((0 : ℤ) : ℚ) = 0 := Int.cast_zero
  rw [round2, mul_zero, ← h, rne_intCast]
  norm_num

theorem rne_eq_of_lt_half (x : ℚ) (n : ℤ) (h1 : (n : ℚ) ≤ x)
    (h2 : x - (n : ℚ) < 1 / 2) : rne x = n := by
  have hf : ⌊x⌋ = n := by
    rw [Int.floor_eq_iff]
    exact ⟨h1, by linarith⟩
  simp only [rne, qfloor_eq_floor, hf]
  rw [if_pos h2]

theorem round2_eval (x : ℚ) (n : ℤ) (h1 : (n : ℚ) ≤ 100 * x)
    (h2 : 100 * x - (n : ℚ) < 1 / 2) : round2 x = (n : ℚ) / 100 := by
  unfold round2
  rw [rne_eq_of_lt_half (100 * x) n h1 h2]

/-- Defaults of `DefaultConfig` (日興証券オンライン取引ベース). -/
def DefaultConfig.LOAN_RATE : ℚ := 14 / 1000

def DefaultConfig.CONSUMPTION_TAX_RATE : ℚ := 10 / 100

def DefaultConfig.MANAGEMENT_FEE_PER_CYCLE : ℚ := 0

def DefaultConfig.WITHHOLDING_TAX_RATE : ℚ := 20315 / 100000

/-- `TradeParams` from the source: the immutable description of one trade.
The Python `end` field is spelled `endd` because `end` is a Lean keyword. -/
structure TradeParams where
  ticker : String
  qty : ℤ
  start : Date
  endd : Date
  ask_price : ℚ
  bid_price : ℚ
  dividend : ℚ
  loan_rate : ℚ
  consumption_tax_rate : ℚ
  management_fee_per_cycle : ℚ
  withholding_tax_rate : ℚ
  spread_on_exit : Bool

/-- `TradeResult` from the source: one field per cost/income line. -/
structure TradeResult where
  loan_fee : ℚ
  consumption_tax : ℚ
  management_fee : ℚ
  dividend_received : ℚ
  dividend_adjustment_paid : ℚ
  entry_spread_cost : ℚ
  exit_spread_cost : ℚ

/-- `TradeResult.total_pre_tax` from the source. -/
def TradeResult.total_pre_tax (r : TradeResult) : ℚ :=
  r.dividend_received - r.dividend_adjustment_paid - r.loan_fee
    - r.consumption_tax - r.management_fee - r.entry_spread_cost
    - r.exit_spread_cost

/-- `TradeResult.total_post_tax(withholding)` from the source. -/
def TradeResult.total_post_tax (r : TradeResult) (withholding : ℚ) : ℚ :=
  r.dividend_received * (1 - withholding) - r.dividend_adjustment_paid
    - r.loan_fee - r.consumption_tax - r.management_fee
    - r.entry_spread_cost - r.exit_spread_cost

/-- `calc_trade` from the source, line for line. -/
def calc_trade (p : TradeParams) : TradeResult :=
  let days := _days_inclusive p.start p.endd
  let months_passed := _count_passed_months p.start p.endd
  let notional := p.bid_price * (p.qty : ℚ)
  let loan_fee := notional * p.loan_rate * (days : ℚ) / 365
  let consumption_tax := loan_fee * p.consumption_tax_rate
  let management_fee := p.management_fee_per_cycle * (months_passed : ℚ)
  let dividend_received := p.dividend * (p.qty : ℚ)
  let dividend_paid := p.dividend * (p.qty : ℚ)
  let entry_spread := (p.ask_price - p.bid_price) * (p.qty : ℚ)
  let exit_spread := if p.spread_on_exit then entry_spread else 0
  { loan_fee := round2 loan_fee,
    consumption_tax := round2 consumption_tax,
    management_fee := round2 management_fee,
    dividend_received := round2 dividend_received,
    dividend_adjustment_paid := round2 dividend_paid,
    entry_spread_cost := round2 entry_spread,
    exit_spread_cost := round2 exit_spread }

def date20250101 : Date :=
  ⟨2025, 1, 1, by decide, by decide, by decide, by decide⟩

def date20250115 : Date :=
  ⟨2025, 1, 15, by decide, by decide, by decide, by decide⟩

def date20250131 : Date :=
  ⟨2025, 1, 31, by decide, by decide, by decide, by decide⟩

def date20250330 : Date :=
  ⟨2025, 3, 30, by decide, by decide, by decide, by decide⟩

def date20250331 : Date :=
  ⟨2025, 3, 31, by decide, by decide, by decide, by decide⟩

def date20250415 : Date :=
  ⟨2025, 4, 15, by decide, by decide, by decide, by decide⟩

/-- The §8 worked example of the spec: ticker "4751", 100 shares,
2025-01-01 → 2025-03-31, ask 1205, bid 1195, dividend 50, defaults. -/
def exampleParams : TradeParams :=
  { ticker := "4751", qty := 100,
    start := date20250101, endd := date20250331,
    ask_price := 1205, bid_price := 1195, dividend := 50,
    loan_rate := DefaultConfig.LOAN_RATE,
    consumption_tax_rate := DefaultConfig.CONSUMPTION_TAX_RATE,
    management_fee_per_cycle := DefaultConfig.MANAGEMENT_FEE_PER_CYCLE,
    withholding_tax_rate := DefaultConfig.WITHHOLDING_TAX_RATE,
    spread_on_exit := false }

/-- C1: for every `TradeParams` record `p`, `calc_trade p` returns a
`TradeResult` whose fields equal the spec's formulas, each independently
rounded to 2 decimal places: loan_fee = bid × qty × loan_rate × days / 365
with days the inclusive day count, consumption_tax = loan_fee ×
consumption_tax_rate, management_fee = fee-per-cycle × months passed,
dividend_received = dividend_adjustment_paid = dividend × qty,
entry_spread_cost = (ask − bid) × qty, and exit_spread_cost equals
entry_spread_cost if spread_on_exit else 0. -/
theorem c1_calc_trade_fields (p : TradeParams) :
    (calc_trade p).loan_fee =
      round2 (p.bid_price * (p.qty : ℚ) * p.loan_rate *
        ((_days_inclusive p.start p.endd : ℤ) : ℚ) / 365) ∧
    (calc_trade p).consumption_tax =
      round2 (p.bid_price * (p.qty : ℚ) * p.loan_rate *
        ((_days_inclusive p.start p.endd : ℤ) : ℚ) / 365 *
        p.consumption_tax_rate) ∧
    (calc_trade p).management_fee =
      round2 (p.management_fee_per_cycle *
        (_count_passed_months p.start p.endd : ℚ)) ∧
    (calc_trade p).dividend_received = round2 (p.dividend * (p.qty : ℚ)) ∧
    (calc_trade p).dividend_adjustment_paid =
      round2 (p.dividend * (p.qty : ℚ)) ∧
    (calc_trade p).entry_spread_cost =
      round2 ((p.ask_price - p.bid_price) * (p.qty : ℚ)) ∧
    (calc_trade p).exit_spread_cost =
      (if p.spread_on_exit then (calc_trade p).entry_spread_cost else 0) := by
  refine ⟨rfl, rfl, rfl, rfl, rfl, rfl, ?_⟩
  cases hb : p.spread_on_exit with
  | false => simp [calc_trade, hb, round2_zero]
  | true => simp [calc_trade, hb]

/-- C3: every monetary field of the `TradeResult` returned by `calc_trade`
is already rounded to 2 decimals (rounding any field again is the
identity), and `total_pre_tax` / `total_post_tax` are computed over the
already-rounded stored fields, so the signed sum of the seven result
fields equals `total_pre_tax` exactly. -/
theorem c3_fields_rounded_and_totals_over_fields (p : TradeParams) :
    round2 (calc_trade p).loan_fee = (calc_trade p).loan_fee ∧
    round2 (calc_trade p).consumption_tax = (calc_trade p).consumption_tax ∧
    round2 (calc_trade p).management_fee = (calc_trade p).management_fee ∧
    round2 (calc_trade p).dividend_received =
      (calc_trade p).dividend_received ∧
    round2 (calc_trade p).dividend_adjustment_paid =
      (calc_trade p).dividend_adjustment_paid ∧
    round2 (calc_trade p).entry_spread_cost =
      (calc_trade p).entry_spread_cost ∧
    round2 (calc_trade p).exit_spread_cost = (calc_trade p).exit_spread_cost ∧
    (calc_trade p).total_pre_tax =
      (calc_trade p).dividend_received
        - (calc_trade p).dividend_adjustment_paid
        - (calc_trade p).loan_fee - (calc_trade p).consumption_tax
        - (calc_trade p).management_fee - (calc_trade p).entry_spread_cost
        - (calc_trade p).exit_spread_cost ∧
    (∀ w : ℚ, (calc_trade p).total_post_tax w =
      (calc_trade p).dividend_received * (1 - w)
        - (calc_trade p).dividend_adjustment_paid
        - (calc_trade p).loan_fee - (calc_trade p).consumption_tax
        - (calc_trade p).management_fee - (calc_trade p).entry_spread_cost
        - (calc_trade p).exit_spread_cost) :=
  ⟨round2_idem _, round2_idem _, round2_idem _, round2_idem _, round2_idem _,
   round2_idem _, round2_idem _, rfl, fun _ => rfl⟩

/-- C4: for every `TradeParams` record `p`, the result has
`dividend_received = dividend_adjustment_paid`, and consequently
`total_pre_tax` is independent of the dividend input: it equals
`-(loan_fee + consumption_tax + management_fee + entry_spread_cost +
exit_spread_cost)`. -/
theorem c4_dividend_symmetry (p : TradeParams) :
    (calc_trade p).dividend_received =
      (calc_trade p).dividend_adjustment_paid ∧
    (calc_trade p).total_pre_tax =
      -((calc_trade p).loan_fee + (calc_trade p).consumption_tax
        + (calc_trade p).management_fee + (calc_trade p).entry_spread_cost
        + (calc_trade p).exit_spread_cost) ∧
    (∀ d : ℚ, (calc_trade { p with dividend := d }).total_pre_tax =
      (calc_trade p).total_pre_tax) := by
  refine ⟨rfl, ?_, ?_⟩
  · have h : (calc_trade p).dividend_received =
        (calc_trade p).dividend_adjustment_paid := rfl
    unfold TradeResult.total_pre_tax
    rw [h]
    ring
  · intro d
    unfold TradeResult.total_pre_tax
    have e1 : (calc_trade { p with dividend := d }).loan_fee =
        (calc_trade p).loan_fee := rfl
    have e2 : (calc_trade { p with dividend := d }).consumption_tax =
        (calc_trade p).consumption_tax := rfl
    have e3 : (calc_trade { p with dividend := d }).management_fee =
        (calc_trade p).management_fee := rfl
    have e4 : (calc_trade { p with dividend := d }).entry_spread_cost =
        (calc_trade p).entry_spread_cost := rfl
    have e5 : (calc_trade { p with dividend := d }).exit_spread_cost =
        (calc_trade p).exit_spread_cost := rfl
    have e6 : (calc_trade { p with dividend := d }).dividend_received =
        (calc_trade { p with dividend := d }).dividend_adjustment_paid := rfl
    have e7 : (calc_trade p).dividend_received =
        (calc_trade p).dividend_adjustment_paid := rfl
    rw [e1, e2, e3, e4, e5, e6, e7]
    ring

theorem ex_days : _days_inclusive date20250101 date20250331 = 90 := by decide

theorem ex_months : _count_passed_months date20250101 date20250331 = 2 := by
  decide

theorem ex_loan_fee : (calc_trade exampleParams).loan_fee = 41252 / 100 := by
  have h : (calc_trade exampleParams).loan_fee =
      round2 (1195 * ((100 : ℤ) : ℚ) * (14 / 1000) *
        ((_days_inclusive date20250101 date20250331 : ℤ) : ℚ) / 365) := rfl
  rw [h, ex_days, round2_eval _ 41252 (by norm_num) (by norm_num)]
  norm_num

theorem ex_consumption_tax :
    (calc_trade exampleParams).consumption_tax = 4125 / 100 := by
  have h : (calc_trade exampleParams).consumption_tax =
      round2 (1195 * ((100 : ℤ) : ℚ) * (14 / 1000) *
        ((_days_inclusive date20250101 date20250331 : ℤ) : ℚ) / 365 *
        (10 / 100)) := rfl
  rw [h, ex_days, round2_eval _ 4125 (by norm_num) (by norm_num)]
  norm_num

theorem ex_management_fee :
    (calc_trade exampleParams).management_fee = 0 := by
  have h : (calc_trade exampleParams).management_fee =
      round2 (0 * ((_count_passed_months date20250101 date20250331 : ℕ) : ℚ)) :=
    rfl
  rw [h, zero_mul, round2_zero]

theorem ex_dividend_received :
    (calc_trade exampleParams).dividend_received = 5000 := by
  have h : (calc_trade exampleParams).dividend_received =
      round2 (50 * ((100 : ℤ) : ℚ)) := rfl
  rw [h, round2_eval _ 500000 (by norm_num) (by norm_num)]
  norm_num

theorem ex_dividend_paid :
    (calc_trade exampleParams).dividend_adjustment_paid = 5000 := by
  have h : (calc_trade exampleParams).dividend_adjustment_paid =
      round2 (50 * ((100 : ℤ) : ℚ)) := rfl
  rw [h, round2_eval _ 500000 (by norm_num) (by norm_num)]
  norm_num

theorem ex_entry_spread :
    (calc_trade exampleParams).entry_spread_cost = 1000 := by
  have h : (calc_trade exampleParams).entry_spread_cost =
      round2 ((1205 - 1195) * ((100 : ℤ) : ℚ)) := rfl
  rw [h]
  have h2 : ((1205 : ℚ) - 1195) * ((100 : ℤ) : ℚ) = 1000 := by norm_num
  rw [h2, round2_eval _ 100000 (by norm_num) (by norm_num)]
  norm_num

theorem ex_exit_spread :
    (calc_trade exampleParams).exit_spread_cost = 0 := by
  have h : (calc_trade exampleParams).exit_spread_cost = round2 0 := rfl
  rw [h, round2_zero]

theorem ex_total_pre_tax :
    (calc_trade exampleParams).total_pre_tax = -145377 / 100 := by
  unfold TradeResult.total_pre_tax
  rw [ex_loan_fee, ex_consumption_tax, ex_management_fee,
    ex_dividend_received, ex_dividend_paid, ex_entry_spread, ex_exit_spread]
  norm_num

/-- C2 counterexample: on the §8 inputs the engine's loan fee is 412.52,
not ≈ 412.36, and its pre-tax total is −1453.77, not −1453.60: the spec's
own formula 119500 × 0.014 × 90 / 365 evaluates to 412.52..., so the
worked example's numbers are arithmetically wrong. -/
theorem c2_example_counterexample :
    (calc_trade exampleParams).loan_fee ≠ 41236 / 100 ∧
    (calc_trade exampleParams).consumption_tax ≠ 4124 / 100 ∧
    (calc_trade exampleParams).total_pre_tax ≠ -14536 / 10 := by
  rw [ex_loan_fee, ex_consumption_tax, ex_total_pre_tax]
  norm_num

/-- C2 amended: for the §8 inputs (quantity 100, 2025-01-01..2025-03-31,
ask 1205, bid 1195, dividend 50, loan rate 0.014, consumption tax 0.10,
management fee 0, spread_on_exit false) the engine produces 90 inclusive
days, 2 passed months, loan_fee = 412.52, consumption_tax = 41.25,
dividend_received = dividend_adjustment_paid = 5000, entry_spread_cost =
1000, exit_spread_cost = 0, and total_pre_tax = −1453.77. -/
theorem c2_example_amended :
    _days_inclusive date20250101 date20250331 = 90 ∧
    _count_passed_months date20250101 date20250331 = 2 ∧
    (calc_trade exampleParams).loan_fee = 41252 / 100 ∧
    (calc_trade exampleParams).consumption_tax = 4125 / 100 ∧
    (calc_trade exampleParams).dividend_received = 5000 ∧
    (calc_trade exampleParams).dividend_adjustment_paid = 5000 ∧
    (calc_trade exampleParams).entry_spread_cost = 1000 ∧
    (calc_trade exampleParams).exit_spread_cost = 0 ∧
    (calc_trade exampleParams).total_pre_tax = -145377 / 100 :=
  ⟨ex_days, ex_months, ex_loan_fee, ex_consumption_tax,
   ex_dividend_received, ex_dividend_paid, ex_entry_spread,
   ex_exit_spread, ex_total_pre_tax⟩

/-- C6: `count_passed_monthly_anniversaries(2025-01-15, 2025-04-15) = 3`
and `count_passed_monthly_anniversaries(2025-01-31, 2025-03-31) = 2`,
with February clamping to its last day (Jan 31 steps to Feb 28). -/
theorem c6_month_count_examples :
    _count_passed_months date20250115 date20250415 = 3 ∧
    _count_passed_months date20250131 date20250331 = 2 ∧
    (addMonth date20250131).year = 2025 ∧
    (addMonth date20250131).month = 2 ∧
    (addMonth date20250131).day = 28 := by
  refine ⟨by decide, by decide, by decide, by decide, by decide⟩

/-- C7: for every `TradeResult` `r` and withholding rate `w`,
`total_post_tax r w = total_pre_tax r − dividend_received × w`; on the §8
example with w = 0.20315 the post-tax total is exactly 1015.75 lower than
the pre-tax total, whose dividend leg credits the full 5000. -/
theorem c7_withholding_only_on_dividend :
    (∀ (r : TradeResult) (w : ℚ),
      r.total_post_tax w = r.total_pre_tax - r.dividend_received * w) ∧
    (calc_trade exampleParams).dividend_received = 5000 ∧
    (calc_trade exampleParams).total_post_tax (20315 / 100000) =
      (calc_trade exampleParams).total_pre_tax - 101575 / 100 := by
  have hgen : ∀ (r : TradeResult) (w : ℚ),
      r.total_post_tax w = r.total_pre_tax - r.dividend_received * w := by
    intro r w
    unfold TradeResult.total_post_tax TradeResult.total_pre_tax
    ring
  refine ⟨hgen, ex_dividend_received, ?_⟩
  rw [hgen, ex_dividend_received]
  norm_num

/-- C8: flipping `spread_on_exit` from false to true on otherwise
identical inputs makes `exit_spread_cost` equal `entry_spread_cost`
(instead of 0) and lowers `total_pre_tax` by exactly the entry spread
cost. -/
theorem c8_exit_spread_toggle (p : TradeParams)
    (h : p.spread_on_exit = false) :
    (calc_trade { p with spread_on_exit := true }).exit_spread_cost =
      (calc_trade { p with spread_on_exit := true }).entry_spread_cost ∧
    (calc_trade { p with spread_on_exit := true }).entry_spread_cost =
      (calc_trade p).entry_spread_cost ∧
    (calc_trade { p with spread_on_exit := true }).total_pre_tax =
      (calc_trade p).total_pre_tax - (calc_trade p).entry_spread_cost := by
  refine ⟨rfl, rfl, ?_⟩
  have hx : (calc_trade p).exit_spread_cost = 0 := by
    have h0 : (calc_trade p).exit_spread_cost =
        round2 (if p.spread_on_exit then
          ((p.ask_price - p.bid_price) * (p.qty : ℚ)) else 0) := rfl
    rw [h0, h]
    simp [round2_zero]
  have h1 : (calc_trade { p with spread_on_exit := true }).loan_fee =
      (calc_trade p).loan_fee := rfl
  have h2 : (calc_trade { p with spread_on_exit := true }).consumption_tax =
      (calc_trade p).consumption_tax := rfl
  have h3 : (calc_trade { p with spread_on_exit := true }).management_fee =
      (calc_trade p).management_fee := rfl
  have h4 : (calc_trade { p with spread_on_exit := true }).dividend_received =
      (calc_trade p).dividend_received := rfl
  have h5 : (calc_trade
        { p with spread_on_exit := true }).dividend_adjustment_paid =
      (calc_trade p).dividend_adjustment_paid := rfl
  have h6 : (calc_trade { p with spread_on_exit := true }).entry_spread_cost =
      (calc_trade p).entry_spread_cost := rfl
  have h7 : (calc_trade { p with spread_on_exit := true }).exit_spread_cost =
      (calc_trade p).entry_spread_cost := rfl
  unfold TradeResult.total_pre_tax
  rw [h1, h2, h3, h4, h5, h6, h7, hx]
  ring

/-- Witness for C8: the toggle applied to the §8 example. -/
theorem c8_witness :
    (calc_trade
        { exampleParams with spread_on_exit := true }).exit_spread_cost =
      (calc_trade
        { exampleParams with spread_on_exit := true }).entry_spread_cost ∧
    (calc_trade
        { exampleParams with spread_on_exit := true }).entry_spread_cost =
      (calc_trade exampleParams).entry_spread_cost ∧
    (calc_trade { exampleParams with spread_on_exit := true }).total_pre_tax =
      (calc_trade exampleParams).total_pre_tax -
        (calc_trade exampleParams).entry_spread_cost :=
  c8_exit_spread_toggle exampleParams rfl

/-- Follows the spec's words for C5 (the comparison definition for the
refinement claim): the k-th monthly anniversary obtained by advancing k
calendar months from the original start date, clamping into short months,
so that the sequence from Jan 31 is Feb 28/29 and then Mar 31. -/
def specAnniversary (s : Date) (k : Nat) : Date where
  year := (s.year * 12 + (s.month - 1) + k) / 12
  month := (s.year * 12 + (s.month - 1) + k) % 12 + 1
  day := min s.day (daysInMonth ((s.year * 12 + (s.month - 1) + k) / 12)
    ((s.year * 12 + (s.month - 1) + k) % 12 + 1))
  month_ge := by omega
  month_le := by
    have h := Nat.mod_lt (s.year * 12 + (s.month - 1) + k)
      (show 0 < 12 by norm_num)
    omega
  day_ge := le_min s.day_ge (one_le_daysInMonth _ _)
  day_le := min_le_right _ _

/-- Follows the spec's words for C5: count the anniversaries of the
spec's from-start sequence (`specAnniversary s 1`, `specAnniversary s 2`,
...) that are ≤ end, stopping at the first one beyond end. -/
def specCountFuel : Nat → Date → Date → Nat → Nat
  | 0, _, _, _ => 0
  | f + 1, s, e, k =>
    if dateLeb (specAnniversary s k) e then specCountFuel f s e (k + 1) + 1
    else 0

/-- Follows the spec's words for C5: the number of from-start monthly
anniversary dates of `s` that are ≤ `e`. -/
def specCountAnniversaries (s e : Date) : Nat :=
  specCountFuel (monthsBound e s) s e 1

/-- C5 counterexample: the claim's anniversary sequence from Jan 31 is
Feb 28 then Mar 31 (as `specAnniversary` shows), but the code's second
anniversary is Mar 28, and on start 2025-01-31, end 2025-03-30 the code
returns 2 while only one date of the claim's sequence is ≤ end. -/
theorem c5_counterexample :
    _count_passed_months date20250131 date20250330 = 2 ∧
    specCountAnniversaries date20250131 date20250330 = 1 ∧
    (specAnniversary date20250131 2).month = 3 ∧
    (specAnniversary date20250131 2).day = 31 ∧
    (addMonth (addMonth date20250131)).month = 3 ∧
    (addMonth (addMonth date20250131)).day = 28 := by
  refine ⟨by decide, by decide, by decide, by decide, by decide, by decide⟩

/-- C5 amended: the loop advances by one calendar month from the previous
(already clamped) anniversary, so from Jan 31 the successive dates are
Feb 28 and then Mar 28 — the clamped day is not restored — and for every
start and end the function returns the number of successive anniversary
dates that are ≤ end, per the loop recurrence. -/
theorem c5_amended_iterated_month_steps :
    ((addMonth date20250131).month = 2 ∧ (addMonth date20250131).day = 28) ∧
    ((addMonth (addMonth date20250131)).month = 3 ∧
      (addMonth (addMonth date20250131)).day = 28) ∧
    (∀ s e : Date, _count_passed_months s e =
      if dateLeb (addMonth s) e then _count_passed_months (addMonth s) e + 1
      else 0) :=
  ⟨⟨by decide, by decide⟩, ⟨by decide, by decide⟩, count_passed_months_unfold⟩

/-- C10: the loop of `_count_passed_months` terminates for every pair of
dates — any fuel at least the month-index distance yields the same count,
the count is bounded by that distance — and the function returns 0
whenever the first anniversary exceeds `end`, including the unvalidated
cases `end = start` and `end < start`. -/
theorem c10_termination (s e : Date) :
    (∀ f, monthsBound e (addMonth s) ≤ f →
      countFuel f e (addMonth s) = _count_passed_months s e) ∧
    _count_passed_months s e ≤ monthsBound e (addMonth s) ∧
    (dateLeb (addMonth s) e = false → _count_passed_months s e = 0) ∧
    (dateLeb e s = true → _count_passed_months s e = 0) := by
  refine ⟨?_, ?_, ?_, ?_⟩
  · intro f hf
    exact countFuel_monthsBound f e (addMonth s) hf
  · exact countFuel_le _ e (addMonth s)
  · intro h
    rw [count_passed_months_unfold, h]
    simp
  · intro h
    have hfalse : dateLeb (addMonth s) e = false := by
      cases hb : dateLeb (addMonth s) e with
      | false => rfl
      | true =>
        have h1 := monthIdx_le_of_dateLeb _ _ hb
        have h2 := monthIdx_le_of_dateLeb _ _ h
        rw [monthIdx_addMonth] at h1
        omega
    rw [count_passed_months_unfold, hfalse]
    simp

/-- Witness for C10: a sufficient fuel reproduces the count on the §8
dates, and with start and end swapped (end before start) the count is 0. -/
theorem c10_witness :
    countFuel 7 date20250331 (addMonth date20250101) =
      _count_passed_months date20250101 date20250331 ∧
    _count_passed_months date20250331 date20250101 = 0 :=
  ⟨(c10_termination date20250101 date20250331).1 7 (by decide),
   (c10_termination date20250331 date20250101).2.2.2 (by decide)⟩

/-- The failure modes of `fetch_bid_ask_yahoo`: a non-200 HTTP status, a
labeled table cell that cannot be located, non-numeric extracted text
(`float(text)` raises `ValueError`), and a transport error
(`requests.RequestException`). -/
inductive FetchOutcome where
  | httpStatus (code : Nat)
  | labelNotFound (label : String)
  | nonNumericText (label : String) (text : String)
  | transport (msg : String)

/-- The message of the error `fetch_bid_ask_yahoo` raises on each failure
mode.  The `except` clause catches only `RequestException`, `ValueError`
and `AttributeError` and wraps them as
`f"Failed to fetch bid/ask for {ticker}: {e}"`; the `RuntimeError`s
raised for a non-200 status and for a missing label are NOT in that
tuple, so they propagate with their original, ticker-free messages. -/
def fetchErrorMessage (ticker : String) : FetchOutcome → String
  | .httpStatus code =>
      "Failed to fetch Yahoo Finance page: HTTP " ++ toString code
  | .labelNotFound label =>
      "Could not locate " ++ label ++ " on Yahoo page"
  | .nonNumericText _ text =>
      "Failed to fetch bid/ask for " ++ ticker
        ++ ": could not convert string to float: " ++ text
  | .transport msg =>
      "Failed to fetch bid/ask for " ++ ticker ++ ": " ++ msg

/-- Does `hay` start with `needle`? (character lists) -/
def listStartsWith : List Char → List Char → Bool
  | _, [] => true
  | [], _ :: _ => false
  | c :: cs, d :: ds => (c == d) && listStartsWith cs ds

/-- Does `hay` contain `needle` as a contiguous substring? -/
def listHasSub : List Char → List Char → Bool
  | [], needle => needle.isEmpty
  | c :: cs, needle => listStartsWith (c :: cs) needle || listHasSub cs needle

/-- String containment, as used to state that an error message carries
the ticker or the underlying cause. -/
def strContains (hay needle : String) : Bool := listHasSub hay.data needle.data

theorem listStartsWith_append (n b : List Char) :
    listStartsWith (n ++ b) n = true := by
  induction n with
  | nil => simp [listStartsWith]
  | cons c cs ih => simp [listStartsWith, ih]

theorem listHasSub_append_self (n b : List Char) :
    listHasSub (n ++ b) n = true := by
  cases n with
  | nil => cases b <;> simp [listHasSub, listStartsWith]
  | cons c cs =>
    simp [listHasSub, listStartsWith, listStartsWith_append]

theorem listHasSub_self (n : List Char) : listHasSub n n = true := by
  have h := listHasSub_append_self n []
  simpa using h

theorem listHasSub_append_left (a t n : List Char)
    (h : listHasSub t n = true) : listHasSub (a ++ t) n = true := by
  induction a with
  | nil => simpa
  | cons c cs ih =>
    simp only [List.cons_append, listHasSub, Bool.or_eq_true]
    exact Or.inr ih

theorem listHasSub_middle (a n b : List Char) :
    listHasSub (a ++ (n ++ b)) n = true :=
  listHasSub_append_left a _ _ (listHasSub_append_self n b)

theorem listHasSub_tail (a n : List Char) :
    listHasSub (a ++ n) n = true :=
  listHasSub_append_left a _ _ (listHasSub_self n)

/-- C9 counterexample: for the §8 ticker "4751", the error raised on a
non-200 HTTP status ("Failed to fetch Yahoo Finance page: HTTP 404") and
the error raised when a labeled cell cannot be located ("Could not locate
買気配 on Yahoo page") do not contain the ticker: the `except` clause
does not catch `RuntimeError`, so those messages are never wrapped with
the ticker. -/
theorem c9_counterexample :
    strContains (fetchErrorMessage "4751" (.httpStatus 404)) "4751" =
      false ∧
    strContains (fetchErrorMessage "4751" (.labelNotFound "買気配"))
      "4751" = false := by
  refine ⟨by decide, by decide⟩

/-- C9 amended: transport errors and non-numeric extracted text are
caught and re-raised with a message containing both the ticker and the
underlying cause, while the non-200-status and missing-label errors
propagate with a message containing only the cause (the HTTP status code,
respectively the label), not necessarily the ticker. -/
theorem c9_amended_error_messages (ticker label text msg : String)
    (code : Nat) :
    strContains (fetchErrorMessage ticker (.transport msg)) ticker = true ∧
    strContains (fetchErrorMessage ticker (.transport msg)) msg = true ∧
    strContains (fetchErrorMessage ticker (.nonNumericText label text))
      ticker = true ∧
    strContains (fetchErrorMessage ticker (.nonNumericText label text))
      text = true ∧
    strContains (fetchErrorMessage ticker (.labelNotFound label)) label =
      true ∧
    strContains (fetchErrorMessage ticker (.httpStatus code))
      (toString code) = true := by
  refine ⟨?_, ?_, ?_, ?_, ?_, ?_⟩ <;>
    simp only [fetchErrorMessage, strContains, String.data_append,
      List.append_assoc]
  · exact listHasSub_middle _ _ _
  · exact listHasSub_append_left _ _ _
      (listHasSub_append_left _ _ _ (listHasSub_tail _ _))
  · exact listHasSub_middle _ _ _
  · exact listHasSub_append_left _ _ _
      (listHasSub_append_left _ _ _ (listHasSub_tail _ _))
  · exact listHasSub_middle _ _ _
  · exact listHasSub_tail _ _
